import Mathlib

/-!
Verification of the serial ingestion and decoding code of the mediot Wails
desktop app (src/mediot/app.go).  The repository's app.go contains two
historical variants of the same file; where they differ we embed both, with
suffixes V1 (first variant: hex-CSV text parsing, unsigned binary parsing)
and V2 (second variant: decimal-CSV text parsing, signed binary parsing).

Modelling conventions:
- Go bytes are `Nat` values; a real `[]byte` cell is < 256, stated as a
  hypothesis where a theorem needs it.  Go strings over the serial data are
  byte lists (`List Nat`), since all the string operations used by the code
  (Split on ",", TrimSpace, Contains, HasPrefix, range searching for a
  newline byte) operate bytewise on the ASCII payloads involved.
- `SensorData`'s float64 channel fields always hold exact integer values of
  magnitude < 2^32, which float64 represents exactly; we model them as `Int`.
  The capture timestamp is not modelled (no property mentions it).
- Error messages produced by `fmt.Errorf` with interpolated data are modelled
  by their fixed prefix; fully constant messages are kept verbatim.
- The external serial device is modelled by passing each call the outcome the
  device would produce (the open/close/read results).
-/

namespace Mediot

/-- SensorData (app.go): three channel values; the float64 fields are modelled
as exact integers, the timestamp is omitted. -/
structure Sample where
  value1 : Int
  value2 : Int
  value3 : Int
  deriving DecidableEq, Repr

/-- ConnectionResult (app.go): result of a connect/disconnect attempt. -/
structure ConnectionResult where
  success : Bool
  message : String
  deriving DecidableEq, Repr

/-- App (app.go): the session state fields touched by the claims.  The opaque
`serial.Port` handle is modelled as `Option Unit` (nil or a live handle). -/
structure AppState where
  serialPort : Option Unit
  isConnected : Bool
  dataBuffer : List Nat
  deriving DecidableEq, Repr

/-- NewApp (app.go): initial state, disconnected with an empty buffer. -/
def NewApp : AppState :=
  { serialPort := none, isConnected := false, dataBuffer := [] }

/-- Byte value of the ASCII comma separator. -/
def commaByte : Nat := 44

/-- Go `unicode.IsSpace` restricted to single bytes of valid ASCII text:
space and the control characters 9 to 13 (tab, LF, VT, FF, CR). -/
def isSpaceByte (c : Nat) : Bool := c = 32 || (9 ≤ c && c ≤ 13)

/-- Go `strings.TrimSpace` on a byte list: drop leading and trailing
whitespace bytes. -/
def trimSpace (s : List Nat) : List Nat :=
  ((s.dropWhile isSpaceByte).reverse.dropWhile isSpaceByte).reverse

/-- Go `strings.Split(s, ",")` on a byte list: split around every comma,
yielding (number of commas + 1) fields. -/
def splitOnComma : List Nat → List (List Nat)
  | [] => [[]]
  | c :: rest =>
    let ps := splitOnComma rest
    if c = commaByte then
      [] :: ps
    else
      match ps with
      | [] => [[c]]
      | p :: ps' => (c :: p) :: ps'

/-- ASCII hexadecimal digit test (0-9, a-f, A-F), as Go `strconv.ParseUint`
base 16 accepts. -/
def isHexDigit (c : Nat) : Bool :=
  (48 ≤ c && c ≤ 57) || (97 ≤ c && c ≤ 102) || (65 ≤ c && c ≤ 70)

/-- Numeric value of an ASCII hexadecimal digit. -/
def hexDigitVal (c : Nat) : Nat :=
  if 48 ≤ c ∧ c ≤ 57 then c - 48
  else if 97 ≤ c then c - 87
  else c - 55

/-- Base-16 value of a digit byte list, most significant digit first. -/
def hexVal (s : List Nat) : Nat :=
  s.foldl (fun a c => a * 16 + hexDigitVal c) 0

/-- ASCII decimal digit test. -/
def isDecDigit (c : Nat) : Bool := 48 ≤ c && c ≤ 57

/-- Base-10 value of a digit byte list, most significant digit first. -/
def decVal (s : List Nat) : Nat :=
  s.foldl (fun a c => a * 10 + (c - 48)) 0

/-- Go `strconv.ParseUint(s, 16, 32)`: a nonempty all-hex-digit string whose
value fits in 32 bits; no sign, no digit-count bound beyond the value bound. -/
def parseUintHex32 (s : List Nat) : Except String Nat :=
  if s = [] then .error "invalid hex value"
  else if s.all isHexDigit then
    if hexVal s < 2 ^ 32 then .ok (hexVal s)
    else .error "invalid hex value"
  else .error "invalid hex value"

/-- parseHexUint32 (app.go 305-318): strip an optional `0x`/`0X` prefix
(`strings.HasPrefix`), then Go `strconv.ParseUint(s, 16, 32)`. -/
def parseHexUint32 (hexStr : List Nat) : Except String Nat :=
  parseUintHex32
    (if hexStr.take 2 = [48, 120] ∨ hexStr.take 2 = [48, 88] then hexStr.drop 2
     else hexStr)

/-- parseInt32 (app.go 639-647): Go `strconv.ParseInt(s, 10, 32)` — an
optional sign, then a nonempty run of decimal digits, value within int32. -/
def parseInt32 (numStr : List Nat) : Except String Int :=
  match numStr with
  | [] => .error "invalid int32 value"
  | c :: rest =>
    let digits := if c = 45 ∨ c = 43 then rest else numStr
    if digits = [] then .error "invalid int32 value"
    else if digits.all isDecDigit then
      if c = 45 then
        if decVal digits ≤ 2 ^ 31 then .ok (-(decVal digits : Int))
        else .error "invalid int32 value"
      else
        if decVal digits ≤ 2 ^ 31 - 1 then .ok (decVal digits : Int)
        else .error "invalid int32 value"
    else .error "invalid int32 value"

/-- parseTextFormat, first variant (app.go 258-280): split on commas, require
at least three fields, parse the first three (trimmed) as hex uint32; any
field failure fails the whole record. -/
def parseTextFormatV1 (dataStr : List Nat) : Except String Sample :=
  let parts := splitOnComma dataStr
  if parts.length < 3 then .error "invalid text format"
  else
    match parseHexUint32 (trimSpace (parts.getD 0 [])),
        parseHexUint32 (trimSpace (parts.getD 1 [])),
        parseHexUint32 (trimSpace (parts.getD 2 [])) with
    | .ok v1, .ok v2, .ok v3 => .ok ⟨(v1 : Int), (v2 : Int), (v3 : Int)⟩
    | _, _, _ => .error "error parsing hex values"

/-- parseTextFormat, second variant (app.go 584-611): split on commas, require
at least three fields, parse the first three (trimmed) as decimal int32; any
field failure fails the whole record. -/
def parseTextFormatV2 (dataStr : List Nat) : Except String Sample :=
  let parts := splitOnComma dataStr
  if parts.length < 3 then .error "invalid text format"
  else
    match parseInt32 (trimSpace (parts.getD 0 [])),
        parseInt32 (trimSpace (parts.getD 1 [])),
        parseInt32 (trimSpace (parts.getD 2 [])) with
    | .ok v1, .ok v2, .ok v3 => .ok ⟨v1, v2, v3⟩
    | _, _, _ => .error "error parsing int32 values"

/-- Go `int32(u)` reinterpretation of a uint32 value as a signed 32-bit
integer (two's complement). -/
def toInt32 (u : Nat) : Int :=
  if u < 2 ^ 31 then (u : Int) else (u : Int) - 2 ^ 32

/-- parseBinaryFormat, first variant (app.go 283-302): require at least 12
bytes, compose bytes 0-3, 4-7, 8-11 little-endian with OR and shifts into
three uint32 channel values. -/
def parseBinaryFormatV1 (data : List Nat) : Except String Sample :=
  if data.length < 12 then .error "insufficient binary data"
  else
    let value1 := data.getD 0 0 ||| data.getD 1 0 <<< 8 |||
      data.getD 2 0 <<< 16 ||| data.getD 3 0 <<< 24
    let value2 := data.getD 4 0 ||| data.getD 5 0 <<< 8 |||
      data.getD 6 0 <<< 16 ||| data.getD 7 0 <<< 24
    let value3 := data.getD 8 0 ||| data.getD 9 0 <<< 8 |||
      data.getD 10 0 <<< 16 ||| data.getD 11 0 <<< 24
    .ok ⟨(value1 : Int), (value2 : Int), (value3 : Int)⟩

/-- parseBinaryFormat, second variant (app.go 614-636): same little-endian
composition, then reinterpreted as signed int32 channel values. -/
def parseBinaryFormatV2 (data : List Nat) : Except String Sample :=
  if data.length < 12 then .error "insufficient binary data"
  else
    let value1 := data.getD 0 0 ||| data.getD 1 0 <<< 8 |||
      data.getD 2 0 <<< 16 ||| data.getD 3 0 <<< 24
    let value2 := data.getD 4 0 ||| data.getD 5 0 <<< 8 |||
      data.getD 6 0 <<< 16 ||| data.getD 7 0 <<< 24
    let value3 := data.getD 8 0 ||| data.getD 9 0 <<< 8 |||
      data.getD 10 0 <<< 16 ||| data.getD 11 0 <<< 24
    .ok ⟨toInt32 value1, toInt32 value2, toInt32 value3⟩

/-- Outcome of one `serialPort.Read` call: a device error, or `n ≥ 0` bytes
(the go.bug.st/serial timeout case is `ok []`: zero bytes, nil error). -/
inductive ReadOutcome where
  | err (msg : String)
  | ok (bytes : List Nat)
  deriving DecidableEq, Repr

/-- The parsing step shared by both ReadSensorData variants, applied to the
bytes of one physical read: a zero-byte read is the error `no data received`;
bytes containing a comma with `n < 100` go to the text parser on the trimmed
string; otherwise at least 12 bytes go to the binary parser on the first 12. -/
def parseRead (textP binP : List Nat → Except String Sample)
    (bytes : List Nat) : Except String Sample :=
  if bytes.length = 0 then .error "no data received"
  else if bytes.contains commaByte && decide (bytes.length < 100) then
    textP (trimSpace bytes)
  else if 12 ≤ bytes.length then binP (bytes.take 12)
  else .error "insufficient data for parsing"

/-- ReadSensorData, first variant (app.go 147-181): guard on connection state,
propagate a read error, else parse the read's bytes.  No App field is written
by this function (the accumulated dataBuffer is never appended to or read). -/
def ReadSensorDataV1 (a : AppState) (r : ReadOutcome) : Except String Sample :=
  if a.isConnected = false ∨ a.serialPort = none then
    .error "not connected to serial port"
  else
    match r with
    | .err m => .error m
    | .ok bytes => parseRead parseTextFormatV1 parseBinaryFormatV1 bytes

/-- ReadSensorData, second variant (app.go 470-507): identical control flow,
using the decimal text parser and the signed binary parser. -/
def ReadSensorDataV2 (a : AppState) (r : ReadOutcome) : Except String Sample :=
  if a.isConnected = false ∨ a.serialPort = none then
    .error "not connected to serial port"
  else
    match r with
    | .err m => .error m
    | .ok bytes => parseRead parseTextFormatV2 parseBinaryFormatV2 bytes

/-- A connected state with a live port handle and empty buffer (the state
ConnectToSerialPort establishes on success). -/
def connectedApp : AppState :=
  { serialPort := some (), isConnected := true, dataBuffer := [] }

/-- The Sample sequence produced by delivering the given chunks of bytes as
successive reads to ReadSensorData (first variant) in a connected state:
each read is parsed independently (the source mutates no App state in
ReadSensorData), and failed reads contribute no Sample. -/
def decodeStreamV1 (chunks : List (List Nat)) : List Sample :=
  chunks.filterMap fun c => (ReadSensorDataV1 connectedApp (.ok c)).toOption

/-- The Sample sequence produced by delivering the given chunks of bytes as
successive reads to ReadSensorData (second variant) in a connected state. -/
def decodeStreamV2 (chunks : List (List Nat)) : List Sample :=
  chunks.filterMap fun c => (ReadSensorDataV2 connectedApp (.ok c)).toOption

/-- tryParseTextFormat (app.go 207-237): find the first LF or CR in the
accumulated buffer; if found, parse the line before it and keep the bytes
after it; if none and the buffer is under 50 bytes, wait; if none and the
buffer has reached 50 bytes, parse the whole buffer and reset it to empty.
Returns the parse outcome and the new buffer contents. -/
def tryParseTextFormatV1 (dataBuffer : List Nat) :
    Except String Sample × List Nat :=
  match dataBuffer.findIdx? (fun c => c = 10 || c = 13) with
  | some i =>
    (parseTextFormatV1 (trimSpace (dataBuffer.take i)), dataBuffer.drop (i + 1))
  | none =>
    if dataBuffer.length < 50 then
      (.error "waiting for complete text line", dataBuffer)
    else
      (parseTextFormatV1 (trimSpace dataBuffer), [])

/-- ConnectToSerialPort (app.go 77-110): refuse when already connected; on an
open error return a failure and change nothing; on success install the handle,
set the flag, and clear the buffer.  `openErr` is the device's response to
`serial.Open`. -/
def ConnectToSerialPort (a : AppState) (portName : String) (baudRate : Int)
    (openErr : Option String) : AppState × ConnectionResult :=
  if a.isConnected then
    (a, ⟨false, "Already connected to a port"⟩)
  else
    match openErr with
    | some e => (a, ⟨false, "Failed to open port: " ++ e⟩)
    | none =>
      ({ serialPort := some (), isConnected := true, dataBuffer := [] },
        ⟨true, "Connected to " ++ portName ++ " at " ++ toString baudRate
          ++ " baud"⟩)

/-- DisconnectFromSerialPort (app.go 113-139): refuse when not connected or
the handle is nil; on a close error return a failure and change nothing; on
success clear the handle, the flag, and the buffer.  `closeErr` is the
device's response to `port.Close`. -/
def DisconnectFromSerialPort (a : AppState) (closeErr : Option String) :
    AppState × ConnectionResult :=
  if a.isConnected = false ∨ a.serialPort = none then
    (a, ⟨false, "No active connection"⟩)
  else
    match closeErr with
    | some e => (a, ⟨false, "Error closing port: " ++ e⟩)
    | none =>
      ({ serialPort := none, isConnected := false, dataBuffer := [] },
        ⟨true, "Disconnected successfully"⟩)

/-- One connect or disconnect call together with the device outcome it met. -/
inductive SessionOp where
  | connect (portName : String) (baudRate : Int) (openErr : Option String)
  | disconnect (closeErr : Option String)

/-- The state after one session operation (the result message is dropped). -/
def stepOp (a : AppState) (op : SessionOp) : AppState :=
  match op with
  | .connect p b oe => (ConnectToSerialPort a p b oe).1
  | .disconnect ce => (DisconnectFromSerialPort a ce).1

/-- The state reached from NewApp by a sequence of session operations. -/
def runOps (ops : List SessionOp) : AppState :=
  ops.foldl stepOp NewApp

/-- Byte list of an ASCII string literal. -/
def strBytes (s : String) : List Nat :=
  s.data.map Char.toNat

/-- A 501-byte buffer with no record terminator whose content is the single
hex-CSV record `0x1,0x2,0x0···03` (490 zero digits pad the third field). -/
def noTermBuf501 : List Nat :=
  strBytes "0x1,0x2,0x" ++ List.replicate 490 48 ++ [51]

/-- Disjoint bitwise composition: OR-ing a value below `2 ^ n` with a
left-shifted value is addition, the heart of the little-endian byte packing
in parseBinaryFormat. -/
lemma lor_shiftLeft_eq_add (a b n : Nat) (h : a < 2 ^ n) :
    a ||| b <<< n = a + 2 ^ n * b := by
  rw [Nat.shiftLeft_eq, Nat.mul_comm b (2 ^ n), Nat.lor_comm,
    ← Nat.mul_add_lt_is_or h b]
  omega

/-- The OR-and-shift pattern of parseBinaryFormat on four bytes equals the
base-256 little-endian value. -/
lemma le32_bytes (b0 b1 b2 b3 : Nat) (h0 : b0 < 256) (h1 : b1 < 256)
    (h2 : b2 < 256) (h3 : b3 < 256) :
    b0 ||| b1 <<< 8 ||| b2 <<< 16 ||| b3 <<< 24
      = b0 + 256 * b1 + 65536 * b2 + 16777216 * b3 := by
  rw [lor_shiftLeft_eq_add b0 b1 8 (by norm_num; omega)]
  rw [lor_shiftLeft_eq_add _ b2 16 (by norm_num; omega)]
  rw [lor_shiftLeft_eq_add _ b3 24 (by norm_num; omega)]
  norm_num

/-- splitOnComma always produces at least one field. -/
lemma splitOnComma_ne_nil (s : List Nat) : splitOnComma s ≠ [] := by
  induction s with
  | nil => simp [splitOnComma]
  | cons c rest ih =>
    unfold splitOnComma
    split
    · simp
    · cases h : splitOnComma rest with
      | nil => exact absurd h ih
      | cons p ps => simp [h]

/-- splitOnComma produces one more field than there are commas. -/
lemma splitOnComma_length (s : List Nat) :
    (splitOnComma s).length = s.count commaByte + 1 := by
  induction s with
  | nil => simp [splitOnComma]
  | cons c rest ih =>
    unfold splitOnComma
    by_cases hc : c = commaByte
    · subst hc
      rw [if_pos rfl]
      simp [ih]
    · rw [if_neg hc]
      cases h : splitOnComma rest with
      | nil => exact absurd h (splitOnComma_ne_nil rest)
      | cons p ps =>
        have h2 : rest.count commaByte + 1 = ps.length + 1 := by
          rw [← ih, h, List.length_cons]
        show ((c :: p) :: ps).length = List.count commaByte (c :: rest) + 1
        simp only [List.length_cons, List.count_cons_of_ne (Ne.symm hc)]
        omega

/-- An ASCII hexadecimal digit has value below 16. -/
lemma hexDigitVal_lt (c : Nat) (h : isHexDigit c = true) : hexDigitVal c < 16 := by
  have h' : ((48 ≤ c ∧ c ≤ 57) ∨ (97 ≤ c ∧ c ≤ 102)) ∨ (65 ≤ c ∧ c ≤ 70) := by
    simpa [isHexDigit, Bool.or_eq_true, Bool.and_eq_true,
      decide_eq_true_eq] using h
  unfold hexDigitVal
  rcases h' with (h12 | h12) | h12
  · rw [if_pos h12]
    omega
  · rw [if_neg (fun hcon => by omega), if_pos (by omega)]
    omega
  · rw [if_neg (fun hcon => by omega), if_neg (by omega)]
    omega

/-- Generalised foldl bound for hexVal: accumulating hexadecimal digits over
a start value stays below the positional bound. -/
lemma hexVal_foldl_lt :
    ∀ d : List Nat, d.all isHexDigit = true → ∀ a : Nat,
      d.foldl (fun x c => x * 16 + hexDigitVal c) a < (a + 1) * 16 ^ d.length := by
  intro d
  induction d with
  | nil => intro _ a; simp
  | cons c t ih =>
    intro hd a
    rw [List.all_cons, Bool.and_eq_true] at hd
    have hc := hexDigitVal_lt c hd.1
    have h1 := ih hd.2 (a * 16 + hexDigitVal c)
    have h2 : (a * 16 + hexDigitVal c + 1) * 16 ^ t.length
        ≤ (a + 1) * 16 ^ (t.length + 1) := by
      calc (a * 16 + hexDigitVal c + 1) * 16 ^ t.length
          ≤ ((a + 1) * 16) * 16 ^ t.length :=
            Nat.mul_le_mul_right _ (by omega)
        _ = (a + 1) * 16 ^ (t.length + 1) := by ring
    calc (c :: t).foldl (fun x c => x * 16 + hexDigitVal c) a
        = t.foldl (fun x c => x * 16 + hexDigitVal c) (a * 16 + hexDigitVal c) := by
          simp [List.foldl_cons]
      _ < (a * 16 + hexDigitVal c + 1) * 16 ^ t.length := h1
      _ ≤ (a + 1) * 16 ^ (t.length + 1) := h2
      _ = (a + 1) * 16 ^ (c :: t).length := by simp

/-- The base-16 value of a run of hexadecimal digits is below the positional
bound. -/
lemma hexVal_lt (d : List Nat) (hd : d.all isHexDigit = true) :
    hexVal d < 16 ^ d.length := by
  have := hexVal_foldl_lt d hd 0
  simpa [hexVal] using this

/-- parseHexUint32 succeeds on a `0x`- or `0X`-prefixed field of one to eight
hexadecimal digits, returning the digits' base-16 value. -/
lemma parseHexUint32_prefixed (d : List Nat) (hne : d ≠ [])
    (hd : d.all isHexDigit = true) (hlen : d.length ≤ 8)
    (pre : List Nat) (hpre : pre = [48, 120] ∨ pre = [48, 88]) :
    parseHexUint32 (pre ++ d) = .ok (hexVal d) := by
  have hv : hexVal d < 2 ^ 32 := by
    calc hexVal d < 16 ^ d.length := hexVal_lt d hd
      _ ≤ 16 ^ 8 := Nat.pow_le_pow_right (by norm_num) hlen
      _ = 2 ^ 32 := by norm_num
  have hbase : parseUintHex32 d = .ok (hexVal d) := by
    unfold parseUintHex32
    rw [if_neg hne, if_pos hd, if_pos hv]
  rcases hpre with h | h <;> subst h
  · unfold parseHexUint32
    have hcond : List.take 2 ([48, 120] ++ d) = [48, 120] ∨
        List.take 2 ([48, 120] ++ d) = [48, 88] := Or.inl rfl
    rw [if_pos hcond, show List.drop 2 ([48, 120] ++ d) = d from rfl]
    exact hbase
  · unfold parseHexUint32
    have hcond : List.take 2 ([48, 88] ++ d) = [48, 120] ∨
        List.take 2 ([48, 88] ++ d) = [48, 88] := Or.inr rfl
    rw [if_pos hcond, show List.drop 2 ([48, 88] ++ d) = d from rfl]
    exact hbase

/-- Invariant preservation: one connect or disconnect call, whatever the
device outcome, keeps the connected flag equal to the liveness of the port
handle. -/
lemma stepOp_connInv (a : AppState) (op : SessionOp)
    (h : a.isConnected = a.serialPort.isSome) :
    (stepOp a op).isConnected = (stepOp a op).serialPort.isSome := by
  cases op with
  | connect p b oe =>
    show ((ConnectToSerialPort a p b oe).1).isConnected
      = ((ConnectToSerialPort a p b oe).1).serialPort.isSome
    unfold ConnectToSerialPort
    by_cases hc : a.isConnected = true
    · rw [if_pos hc]
      exact h
    · rw [if_neg hc]
      cases oe with
      | some e => exact h
      | none => rfl
  | disconnect ce =>
    show ((DisconnectFromSerialPort a ce).1).isConnected
      = ((DisconnectFromSerialPort a ce).1).serialPort.isSome
    unfold DisconnectFromSerialPort
    by_cases hc : a.isConnected = false ∨ a.serialPort = none
    · rw [if_pos hc]
      exact h
    · rw [if_neg hc]
      cases ce with
      | some e => exact h
      | none => rfl

/-- C1: frame reassembly is claimed boundary-insensitive, but ReadSensorData
parses every physical read independently and never retains a trailing
fragment (it never touches dataBuffer), so the record `0x1,0x2,0x3\n`
delivered whole decodes to one Sample while the same bytes delivered as the
two reads `0x1,0x2` and `,0x3\n` decode to no Sample at all. -/
theorem frame_reassembly_boundary_sensitive :
    decodeStreamV1 [strBytes "0x1,0x2,0x3\n"] = [⟨1, 2, 3⟩] ∧
    decodeStreamV1 [strBytes "0x1,0x2", strBytes ",0x3\n"] = [] :=
  ⟨rfl, rfl⟩

/-- C2: the hex-CSV record `0x1,0x2,0x3`, the decimal-CSV record `1,2,3`, and
the 12-byte little-endian binary block for (1,2,3) each decode to a Sample
with channel values (1,2,3), under the respective decoders of the two
variants. -/
theorem roundtrip_three_encodings :
    parseTextFormatV1 (strBytes "0x1,0x2,0x3") = .ok ⟨1, 2, 3⟩ ∧
    parseTextFormatV2 (strBytes "1,2,3") = .ok ⟨1, 2, 3⟩ ∧
    parseBinaryFormatV1 [1, 0, 0, 0, 2, 0, 0, 0, 3, 0, 0, 0] = .ok ⟨1, 2, 3⟩ ∧
    parseBinaryFormatV2 [1, 0, 0, 0, 2, 0, 0, 0, 3, 0, 0, 0] = .ok ⟨1, 2, 3⟩ :=
  ⟨rfl, rfl, rfl, rfl⟩

/-- C3 counterexample: contrary to the claim that the poll operation never
errors in the no-data cases, ReadSensorData returns an error both when called
disconnected and when a bounded-timeout read yields zero bytes. -/
theorem pollNoData_claim_counterexample :
    ReadSensorDataV1 NewApp (.ok []) = .error "not connected to serial port" ∧
    ReadSensorDataV1 connectedApp (.ok []) = .error "no data received" ∧
    ReadSensorDataV2 NewApp (.ok []) = .error "not connected to serial port" ∧
    ReadSensorDataV2 connectedApp (.ok []) = .error "no data received" :=
  ⟨rfl, rfl, rfl, rfl⟩

/-- C3 (amended): in the no-data cases ReadSensorData returns a failure, not
an empty result: the error `not connected to serial port` when disconnected,
and the error `no data received` when the read yields zero bytes. -/
theorem pollNoData_returns_error (a : AppState) (r : ReadOutcome) :
    (a.isConnected = false →
      ReadSensorDataV1 a r = .error "not connected to serial port" ∧
      ReadSensorDataV2 a r = .error "not connected to serial port") ∧
    (a.isConnected = true → a.serialPort = some () →
      ReadSensorDataV1 a (.ok []) = .error "no data received" ∧
      ReadSensorDataV2 a (.ok []) = .error "no data received") := by
  refine ⟨fun h => ⟨?_, ?_⟩, fun hc hp => ⟨?_, ?_⟩⟩
  · unfold ReadSensorDataV1
    rw [if_pos (Or.inl h)]
  · unfold ReadSensorDataV2
    rw [if_pos (Or.inl h)]
  · unfold ReadSensorDataV1
    rw [if_neg (by simp [hc, hp])]
    rfl
  · unfold ReadSensorDataV2
    rw [if_neg (by simp [hc, hp])]
    rfl

/-- Witness for C3 (amended) at concrete states. -/
theorem pollNoData_returns_error_witness :
    ReadSensorDataV1 NewApp (.ok [49, 44, 50]) = .error "not connected to serial port" ∧
    ReadSensorDataV2 connectedApp (.ok []) = .error "no data received" :=
  ⟨((pollNoData_returns_error NewApp (.ok [49, 44, 50])).1 rfl).1,
    ((pollNoData_returns_error connectedApp (.ok [])).2 rfl rfl).2⟩

/-- C8: connecting while already connected, and disconnecting while not
connected, each return a failure Result with the code's descriptive message
and leave the App state (flag, handle, buffer) exactly as it was. -/
theorem connect_disconnect_misuse (a : AppState) (p : String) (b : Int)
    (oe ce : Option String) :
    (a.isConnected = true →
      ConnectToSerialPort a p b oe = (a, ⟨false, "Already connected to a port"⟩)) ∧
    (a.isConnected = false →
      DisconnectFromSerialPort a ce = (a, ⟨false, "No active connection"⟩)) := by
  constructor
  · intro h
    unfold ConnectToSerialPort
    rw [if_pos h]
  · intro h
    unfold DisconnectFromSerialPort
    rw [if_pos (Or.inl h)]

/-- Witness for C8 at concrete states. -/
theorem connect_disconnect_misuse_witness :
    ConnectToSerialPort connectedApp "COM3" 9600 none
      = (connectedApp, ⟨false, "Already connected to a port"⟩) ∧
    DisconnectFromSerialPort NewApp none
      = (NewApp, ⟨false, "No active connection"⟩) :=
  ⟨(connect_disconnect_misuse connectedApp "COM3" 9600 none none).1 rfl,
    (connect_disconnect_misuse NewApp "COM3" 9600 none none).2 rfl⟩

/-- C9: in every state reachable from the initial state by any sequence of
connect and disconnect calls with any device outcomes (including a failing
port close), the connected flag is true exactly when the port handle is
non-nil. -/
theorem connected_iff_port_live (ops : List SessionOp) :
    (runOps ops).isConnected = (runOps ops).serialPort.isSome := by
  suffices hgen : ∀ a : AppState, a.isConnected = a.serialPort.isSome →
      (List.foldl stepOp a ops).isConnected
        = (List.foldl stepOp a ops).serialPort.isSome by
    exact hgen NewApp rfl
  induction ops with
  | nil =>
    intro a h
    simpa using h
  | cons op rest ih =>
    intro a h
    simpa using ih (stepOp a op) (stepOp_connInv a op h)

/-- C10: parseHexUint32 accepts a field with no 0x/0X prefix and imposes no
digit-count bound: every nonempty all-hex-digit string whose base-16 value
fits in 32 bits parses to that value, so `10,10,10` decodes under hex
semantics to (16,16,16) and the 9-digit field `000000001` is accepted. -/
theorem hexParser_laxity :
    (∀ s : List Nat, s ≠ [] → s.all isHexDigit = true → hexVal s < 2 ^ 32 →
      parseHexUint32 s = .ok (hexVal s)) ∧
    parseTextFormatV1 (strBytes "10,10,10") = .ok ⟨16, 16, 16⟩ ∧
    parseHexUint32 (strBytes "000000001") = .ok 1 := by
  refine ⟨?_, rfl, rfl⟩
  intro s hne hall hv
  have hstrip : (if s.take 2 = [48, 120] ∨ s.take 2 = [48, 88]
      then s.drop 2 else s) = s := by
    rw [if_neg]
    rintro (h | h)
    · have h120 : (120 : Nat) ∈ s.take 2 := by
        rw [h]
        simp
      have hbad := List.all_eq_true.mp hall 120 (List.mem_of_mem_take h120)
      simp [isHexDigit] at hbad
    · have h88 : (88 : Nat) ∈ s.take 2 := by
        rw [h]
        simp
      have hbad := List.all_eq_true.mp hall 88 (List.mem_of_mem_take h88)
      simp [isHexDigit] at hbad
  unfold parseHexUint32
  rw [hstrip]
  unfold parseUintHex32
  rw [if_neg hne, if_pos hall, if_pos hv]

/-- Witness for C10's universally quantified part at the unprefixed
decimal-looking field `10`. -/
theorem hexParser_laxity_witness :
    parseHexUint32 (strBytes "10") = .ok 16 :=
  hexParser_laxity.1 (strBytes "10") (by decide) (by decide) (by decide)

set_option maxRecDepth 8000 in
/-- C4 counterexample: a 501-byte terminator-free buffer is not discarded at
a 500-byte ceiling — tryParseTextFormat parses its entire contents as one
record, here yielding the Sample (1,2,3), and resets the buffer to empty. -/
theorem rawBufferCeiling_counterexample :
    500 < noTermBuf501.length ∧
    noTermBuf501.findIdx? (fun c => c = 10 || c = 13) = none ∧
    tryParseTextFormatV1 noTermBuf501 = (.ok ⟨1, 2, 3⟩, []) :=
  ⟨by decide, by decide, rfl⟩

/-- C4 (amended): the reassembly ceiling of tryParseTextFormat is 50 bytes,
not 500; a terminator-free buffer that has reached it is parsed whole as one
candidate record (which can itself produce a Sample, so the contents are
consumed rather than unconditionally discarded) and the buffer is reset to
empty; below the ceiling the buffer is kept intact; and no call ever grows
the retained buffer. -/
theorem rawBuffer_reset_at_ceiling (buf : List Nat)
    (hterm : buf.findIdx? (fun c => c = 10 || c = 13) = none) :
    (50 ≤ buf.length →
      tryParseTextFormatV1 buf = (parseTextFormatV1 (trimSpace buf), [])) ∧
    (buf.length < 50 →
      tryParseTextFormatV1 buf = (.error "waiting for complete text line", buf)) ∧
    (∀ b : List Nat, (tryParseTextFormatV1 b).2.length ≤ b.length) := by
  refine ⟨fun h50 => ?_, fun hlt => ?_, fun b => ?_⟩
  · simp only [tryParseTextFormatV1, hterm]
    rw [if_neg (by omega)]
  · simp only [tryParseTextFormatV1, hterm]
    rw [if_pos hlt]
  · cases hf : b.findIdx? (fun c => c = 10 || c = 13) with
    | some i =>
      simp only [tryParseTextFormatV1, hf]
      rw [List.length_drop]
      omega
    | none =>
      simp only [tryParseTextFormatV1, hf]
      split
      · exact Nat.le_refl _
      · simp

set_option maxRecDepth 8000 in
/-- Witness for C4 (amended) at the 501-byte terminator-free buffer. -/
theorem rawBuffer_reset_at_ceiling_witness :
    tryParseTextFormatV1 noTermBuf501
      = (parseTextFormatV1 (trimSpace noTermBuf501), []) :=
  (rawBuffer_reset_at_ceiling noTermBuf501 (by decide)).1 (by decide)

/-- C5: a record whose comma-split fields number at least three (at least two
commas) and whose first three trimmed fields are 0x/0X-prefixed runs of one
to eight hexadecimal digits decodes, under the hex-CSV variant, to the Sample
whose channel values are the fields' hex-digit values. -/
theorem hexCsv_decode (s d1 d2 d3 : List Nat)
    (hc : 2 ≤ s.count commaByte)
    (h1 : trimSpace ((splitOnComma s).getD 0 []) = [48, 120] ++ d1 ∨
      trimSpace ((splitOnComma s).getD 0 []) = [48, 88] ++ d1)
    (hd1 : d1 ≠ [] ∧ d1.all isHexDigit = true ∧ d1.length ≤ 8)
    (h2 : trimSpace ((splitOnComma s).getD 1 []) = [48, 120] ++ d2 ∨
      trimSpace ((splitOnComma s).getD 1 []) = [48, 88] ++ d2)
    (hd2 : d2 ≠ [] ∧ d2.all isHexDigit = true ∧ d2.length ≤ 8)
    (h3 : trimSpace ((splitOnComma s).getD 2 []) = [48, 120] ++ d3 ∨
      trimSpace ((splitOnComma s).getD 2 []) = [48, 88] ++ d3)
    (hd3 : d3 ≠ [] ∧ d3.all isHexDigit = true ∧ d3.length ≤ 8) :
    parseTextFormatV1 s
      = .ok ⟨(hexVal d1 : Int), (hexVal d2 : Int), (hexVal d3 : Int)⟩ := by
  have e1 : parseHexUint32 (trimSpace ((splitOnComma s).getD 0 []))
      = .ok (hexVal d1) := by
    rcases h1 with h | h
    · rw [h]
      exact parseHexUint32_prefixed d1 hd1.1 hd1.2.1 hd1.2.2 [48, 120] (Or.inl rfl)
    · rw [h]
      exact parseHexUint32_prefixed d1 hd1.1 hd1.2.1 hd1.2.2 [48, 88] (Or.inr rfl)
  have e2 : parseHexUint32 (trimSpace ((splitOnComma s).getD 1 []))
      = .ok (hexVal d2) := by
    rcases h2 with h | h
    · rw [h]
      exact parseHexUint32_prefixed d2 hd2.1 hd2.2.1 hd2.2.2 [48, 120] (Or.inl rfl)
    · rw [h]
      exact parseHexUint32_prefixed d2 hd2.1 hd2.2.1 hd2.2.2 [48, 88] (Or.inr rfl)
  have e3 : parseHexUint32 (trimSpace ((splitOnComma s).getD 2 []))
      = .ok (hexVal d3) := by
    rcases h3 with h | h
    · rw [h]
      exact parseHexUint32_prefixed d3 hd3.1 hd3.2.1 hd3.2.2 [48, 120] (Or.inl rfl)
    · rw [h]
      exact parseHexUint32_prefixed d3 hd3.1 hd3.2.1 hd3.2.2 [48, 88] (Or.inr rfl)
  unfold parseTextFormatV1
  rw [if_neg (by rw [splitOnComma_length]; omega)]
  rw [e1, e2, e3]

/-- Witness for C5: the scenario record 0x0064,0x00c8,0x012c, also fed with
its newline terminator through a single read, decodes to exactly one Sample
with channel values (100, 200, 300). -/
theorem hexCsv_decode_witness :
    parseTextFormatV1 (strBytes "0x0064,0x00c8,0x012c") = .ok ⟨100, 200, 300⟩ ∧
    decodeStreamV1 [strBytes "0x0064,0x00c8,0x012c\n"] = [⟨100, 200, 300⟩] := by
  constructor
  · exact hexCsv_decode (strBytes "0x0064,0x00c8,0x012c")
      (strBytes "0064") (strBytes "00c8") (strBytes "012c")
      (by decide) (Or.inl (by decide)) (by decide) (Or.inl (by decide))
      (by decide) (Or.inl (by decide)) (by decide)
  · rfl

/-- C6: for every binary record of at least 12 bytes the decoded channel
values are the three 32-bit words formed least-significant byte first from
bytes 0-3, 4-7 and 8-11 (unsigned in the first variant, reinterpreted as
signed int32 in the second); only the first 12 bytes contribute. -/
theorem binary_decode_little_endian
    (b0 b1 b2 b3 b4 b5 b6 b7 b8 b9 b10 b11 : Nat) (rest : List Nat)
    (k0 : b0 < 256) (k1 : b1 < 256) (k2 : b2 < 256) (k3 : b3 < 256)
    (k4 : b4 < 256) (k5 : b5 < 256) (k6 : b6 < 256) (k7 : b7 < 256)
    (k8 : b8 < 256) (k9 : b9 < 256) (k10 : b10 < 256) (k11 : b11 < 256) :
    parseBinaryFormatV1
        (b0 :: b1 :: b2 :: b3 :: b4 :: b5 :: b6 :: b7 :: b8 :: b9 :: b10 :: b11 :: rest)
      = .ok ⟨((b0 + 256 * b1 + 65536 * b2 + 16777216 * b3 : Nat) : Int),
          ((b4 + 256 * b5 + 65536 * b6 + 16777216 * b7 : Nat) : Int),
          ((b8 + 256 * b9 + 65536 * b10 + 16777216 * b11 : Nat) : Int)⟩ ∧
    parseBinaryFormatV2
        (b0 :: b1 :: b2 :: b3 :: b4 :: b5 :: b6 :: b7 :: b8 :: b9 :: b10 :: b11 :: rest)
      = .ok ⟨toInt32 (b0 + 256 * b1 + 65536 * b2 + 16777216 * b3),
          toInt32 (b4 + 256 * b5 + 65536 * b6 + 16777216 * b7),
          toInt32 (b8 + 256 * b9 + 65536 * b10 + 16777216 * b11)⟩ := by
  have e1 := le32_bytes b0 b1 b2 b3 k0 k1 k2 k3
  have e2 := le32_bytes b4 b5 b6 b7 k4 k5 k6 k7
  have e3 := le32_bytes b8 b9 b10 b11 k8 k9 k10 k11
  have hlen : (b0 :: b1 :: b2 :: b3 :: b4 :: b5 :: b6 :: b7 :: b8 :: b9
      :: b10 :: b11 :: rest).length = rest.length + 12 := by
    simp
  constructor
  · unfold parseBinaryFormatV1
    rw [if_neg (by omega)]
    show Except.ok
        (⟨((b0 ||| b1 <<< 8 ||| b2 <<< 16 ||| b3 <<< 24 : Nat) : Int),
          ((b4 ||| b5 <<< 8 ||| b6 <<< 16 ||| b7 <<< 24 : Nat) : Int),
          ((b8 ||| b9 <<< 8 ||| b10 <<< 16 ||| b11 <<< 24 : Nat) : Int)⟩ : Sample)
      = _
    rw [e1, e2, e3]
  · unfold parseBinaryFormatV2
    rw [if_neg (by omega)]
    show Except.ok
        (⟨toInt32 (b0 ||| b1 <<< 8 ||| b2 <<< 16 ||| b3 <<< 24),
          toInt32 (b4 ||| b5 <<< 8 ||| b6 <<< 16 ||| b7 <<< 24),
          toInt32 (b8 ||| b9 <<< 8 ||| b10 <<< 16 ||| b11 <<< 24)⟩ : Sample)
      = _
    rw [e1, e2, e3]

/-- Witness for C6 at the 12-byte block 01 00 00 00 02 00 00 00 03 00 00 00,
which decodes to the Sample (1, 2, 3) under both variants. -/
theorem binary_decode_little_endian_witness :
    parseBinaryFormatV1 [1, 0, 0, 0, 2, 0, 0, 0, 3, 0, 0, 0] = .ok ⟨1, 2, 3⟩ ∧
    parseBinaryFormatV2 [1, 0, 0, 0, 2, 0, 0, 0, 3, 0, 0, 0] = .ok ⟨1, 2, 3⟩ := by
  have h := binary_decode_little_endian 1 0 0 0 2 0 0 0 3 0 0 0 []
    (by norm_num) (by norm_num) (by norm_num) (by norm_num)
    (by norm_num) (by norm_num) (by norm_num) (by norm_num)
    (by norm_num) (by norm_num) (by norm_num) (by norm_num)
  exact ⟨h.1, h.2⟩

/-- C7: a candidate record with fewer than three comma-delimited fields, or
in which any of the first three fields fails int32 parsing (such as the
record -5,10, with its empty third field), is rejected whole by the
decimal-CSV variant: the decode is an error and no partial Sample appears. -/
theorem decCsv_whole_record_failure (s : List Nat)
    (h : (splitOnComma s).length < 3 ∨
      ∃ f ∈ (splitOnComma s).take 3, (parseInt32 (trimSpace f)).toOption = none) :
    ∃ m, parseTextFormatV2 s = .error m := by
  unfold parseTextFormatV2
  by_cases hl : (splitOnComma s).length < 3
  · rw [if_pos hl]
    exact ⟨_, rfl⟩
  · rw [if_neg hl]
    obtain ⟨f, hfmem, hferr⟩ := h.resolve_left hl
    rcases hsp : splitOnComma s with _ | ⟨p0, _ | ⟨p1, _ | ⟨p2, ps⟩⟩⟩
    · exact absurd hsp (splitOnComma_ne_nil s)
    · rw [hsp] at hl
      simp at hl
    · rw [hsp] at hl
      simp at hl
    · have htake : List.take 3 (p0 :: p1 :: p2 :: ps) = [p0, p1, p2] := rfl
      rw [hsp, htake] at hfmem
      simp only [List.mem_cons, List.not_mem_nil, or_false] at hfmem
      show ∃ m,
        (match parseInt32 (trimSpace p0), parseInt32 (trimSpace p1),
            parseInt32 (trimSpace p2) with
          | .ok v1, .ok v2, .ok v3 => Except.ok (⟨v1, v2, v3⟩ : Sample)
          | _, _, _ => Except.error "error parsing int32 values") = .error m
      rcases hfmem with rfl | rfl | rfl
      · cases hE0 : parseInt32 (trimSpace f) with
        | error m0 => exact ⟨_, rfl⟩
        | ok v0 =>
          rw [hE0] at hferr
          simp [Except.toOption] at hferr
      · cases hE0 : parseInt32 (trimSpace p0) with
        | error m0 => exact ⟨_, rfl⟩
        | ok v0 =>
          cases hE1 : parseInt32 (trimSpace f) with
          | error m1 => exact ⟨_, rfl⟩
          | ok v1 =>
            rw [hE1] at hferr
            simp [Except.toOption] at hferr
      · cases hE0 : parseInt32 (trimSpace p0) with
        | error m0 => exact ⟨_, rfl⟩
        | ok v0 =>
          cases hE1 : parseInt32 (trimSpace p1) with
          | error m1 => exact ⟨_, rfl⟩
          | ok v1 =>
            cases hE2 : parseInt32 (trimSpace f) with
            | error m2 => exact ⟨_, rfl⟩
            | ok v2 =>
              rw [hE2] at hferr
              simp [Except.toOption] at hferr

/-- Witness for C7: the scenario record -5,10, (empty third field) decodes to
an error and contributes zero Samples to the stream. -/
theorem decCsv_whole_record_failure_witness :
    (∃ m, parseTextFormatV2 (strBytes "-5,10,") = .error m) ∧
    decodeStreamV2 [strBytes "-5,10,"] = [] :=
  ⟨decCsv_whole_record_failure (strBytes "-5,10,")
      (Or.inr ⟨[], by decide, by decide⟩), rfl⟩

end Mediot
